import Mathlib

/-!
# Verification of the restaurant finance engine and its sync coordinator

Shallow embedding of the core of the `financeeiei.github.io` repository:
the `FinanceEngine` computation pipeline (`src/unnamed/part_001`), the
`FinancialDataValidator` rules and the `StateManager` synchronization logic
(`src/src/lib/validation.ts`).

Modelling conventions (the source is TypeScript, dynamically typed):
* JavaScript numbers are modelled as `ℚ`; a field whose runtime value is not
  a (finite) number — absent, `undefined`, wrong type, or `NaN` — is modelled
  as `none : Option ℚ`.  Arithmetic on such values (which yields `NaN` in JS)
  is modelled by `none`-propagating operations (`jsAdd`, `jsMul`, ...).
  Division by zero (JS `Infinity`/`NaN`) is also mapped to `none`; no claim
  depends on a value produced by a division by zero.
* A field that must be an array at runtime is modelled as `JsArr α` with
  constructors for an absent field, a present non-array value, and an array.
* String fields use `Option String`, where `none` stands for an absent or
  non-string value; the empty string is kept separate because JS truthiness
  (`!x`) treats `""` as falsy.
* `JSON.stringify` equality of two datasets is modelled as structural
  equality of the embedded values (the serialization is deterministic and
  injective on the modelled fragment).
* Timestamps (`computedAt`) and the base64 data-version tag are environment
  dependent and are omitted from the embedded report.
-/

/-- JS value that is required to be an array: it can be absent (`undefined` /
`null`, falsy), present but not an array, or an actual array. -/
inductive JsArr (α : Type) where
  | missing : JsArr α
  | notArr : JsArr α
  | arr : List α → JsArr α
deriving DecidableEq, Repr

/-- `Array.isArray` on the modelled value. -/
def JsArr.isArr {α : Type} : JsArr α → Bool
  | .arr _ => true
  | _ => false

/-- NaN-propagating addition (JS `a + b` on possibly-non-numeric values). -/
def jsAdd : Option ℚ → Option ℚ → Option ℚ
  | some a, some b => some (a + b)
  | _, _ => none

/-- NaN-propagating multiplication. -/
def jsMul : Option ℚ → Option ℚ → Option ℚ
  | some a, some b => some (a * b)
  | _, _ => none

/-- NaN-propagating subtraction. -/
def jsSub : Option ℚ → Option ℚ → Option ℚ
  | some a, some b => some (a - b)
  | _, _ => none

/-- NaN-propagating division; division by zero (JS non-finite result) is
mapped to `none`. -/
def jsDiv : Option ℚ → Option ℚ → Option ℚ
  | some a, some b => if b = 0 then none else some (a / b)
  | _, _ => none

/-- JS truthiness of a numeric field (`undefined` and `0` are falsy). -/
def truthyQ : Option ℚ → Bool
  | some q => q ≠ 0
  | none => false

/-- JS truthiness of a string field (`undefined` and `""` are falsy). -/
def truthyS : Option String → Bool
  | some s => s ≠ ""
  | none => false

/-- `packaging` sub-object of a BOM line (`src/unnamed/part_001`,
interface `BOMItem`). -/
structure Packaging where
  qtyUnit : Option ℚ
  unitCost : Option ℚ
deriving DecidableEq, Repr

/-- One line of a menu's bill of materials. -/
structure BOMItem where
  item : Option String
  qtyG : Option ℚ
  unitCostPerKg : Option ℚ
  yieldPercent : Option ℚ
  wastePercent : Option ℚ
  packaging : Option Packaging
deriving DecidableEq, Repr

/-- `channelMix` of a menu. -/
structure ChannelMix where
  dineIn : Option ℚ
  takeaway : Option ℚ
  delivery : Option ℚ
deriving DecidableEq, Repr

/-- A menu item, as stored in the engine's dataset.  Because mutation
payloads are stored verbatim, every field is dynamically typed. -/
structure MenuItem where
  id : Option String
  name : Option String
  price : Option ℚ
  channelMix : Option ChannelMix
  bom : JsArr BOMItem
deriving DecidableEq, Repr

/-- Sales model; only the fields read by the embedded code paths are kept
(`seasonality`, `openDays`, `operatingHours` are never read by the core). -/
structure SalesModel where
  forecastDailyUnits : Option ℚ
  paymentFeePercent : Option ℚ
  deliveryCommissionPercent : Option ℚ
deriving DecidableEq, Repr

/-- A utility item (electric / lpg / water), dynamically typed. -/
structure UtilityItem where
  id : Option String
  type : Option String
  device : Option String
  kw : Option ℚ
  hoursPerDay : Option ℚ
  ratePerKwh : Option ℚ
  kgPerBatch : Option ℚ
  batchesPerDay : Option ℚ
  ratePerKg : Option ℚ
  m3PerDay : Option ℚ
  ratePerM3 : Option ℚ
deriving DecidableEq, Repr

/-- A labor item. -/
structure LaborItem where
  id : Option String
  role : Option String
  type : Option String
  wagePerHour : Option ℚ
  hoursPerDay : Option ℚ
  daysPerWeek : Option ℚ
deriving DecidableEq, Repr

/-- A fixed cost line. -/
structure FixedCost where
  id : Option String
  name : Option String
  amountPerMonth : Option ℚ
deriving DecidableEq, Repr

/-- The engine's dataset (`this.data` of `FinanceEngine`); `meta` is never
read by the embedded code paths and is omitted. -/
structure EngineData where
  menus : JsArr MenuItem
  salesModel : Option SalesModel
  utilities : JsArr UtilityItem
  labor : JsArr LaborItem
  fixedCosts : JsArr FixedCost
deriving DecidableEq, Repr

/-! ## FinanceEngine: pure computation pipeline (`src/unnamed/part_001`) -/

/-- `FinanceEngine.validateData` (part_001:257-288): menus must be a
non-empty array, `salesModel` must exist with a numeric
`forecastDailyUnits` (the sign is *not* checked), and utilities/labor/fixed
costs must be arrays.  `this.data` itself may be `null` after `load(null)`,
modelled by the outer `Option`. -/
def validateData : Option EngineData → Bool
  | none => false
  | some d =>
    (match d.menus with
     | .arr ms => !ms.isEmpty
     | _ => false) &&
    (match d.salesModel with
     | some sm => sm.forecastDailyUnits.isSome
     | none => false) &&
    d.utilities.isArr && d.labor.isArr && d.fixedCosts.isArr

/-- `FinanceEngine.calculateVariableCostPerUnit` (part_001:388-436): sum over
BOM lines; packaging lines contribute `qtyUnit * unitCost`, ingredient lines
with all numeric fields and `yieldPercent > 0` contribute
`(qtyG/1000) * (1 + max 0 wastePercent / 100) / (yieldPercent/100) *
unitCostPerKg`; every dynamically ill-typed or degenerate line contributes
zero. -/
def calculateVariableCostPerUnit (m : MenuItem) : ℚ :=
  match m.bom with
  | .arr xs =>
    xs.foldl (fun total b =>
      match b.packaging with
      | some p =>
        match p.qtyUnit, p.unitCost with
        | some qu, some uc => total + qu * uc
        | _, _ => total
      | none =>
        match b.qtyG, b.unitCostPerKg, b.yieldPercent, b.wastePercent with
        | some q, some ucpk, some yp, some wp =>
          if yp ≤ 0 then total
          else
            let wastePercent := max 0 wp
            let effectiveYield := yp / 100
            let wasteMultiplier := 1 + wastePercent / 100
            let qtyInKg := q / 1000
            let actualQtyNeeded := qtyInKg * wasteMultiplier / effectiveYield
            total + actualQtyNeeded * ucpk
        | _, _, _, _ => total) 0
  | _ => 0

/-- `FinanceEngine.calculateDailyRevenue` (part_001:344-378): guarded sum of
`price * (forecastDailyUnits * (max 0 dineIn + max 0 takeaway +
max 0 delivery))` over menus, skipping dynamically ill-typed menus. -/
def calculateDailyRevenue (d : EngineData) : ℚ :=
  match d.salesModel with
  | none => 0
  | some sm =>
    match sm.forecastDailyUnits with
    | none => 0
    | some f =>
      match d.menus with
      | .arr ms =>
        ms.foldl (fun total m =>
          match m.price, m.channelMix with
          | some p, some c =>
            match c.dineIn, c.takeaway, c.delivery with
            | some di, some ta, some de =>
              total + p * (f * (max 0 di + max 0 ta + max 0 de))
            | _, _, _ => total
          | _, _ => total) 0
      | _ => 0

/-- `FinanceEngine.calculateDailyCOGS` (part_001:380-386).  The source has no
array / type guards here (its only caller runs after `validateData`); outside
that guarded region the JS code throws or produces `NaN`, modelled by
`none`. -/
def calculateDailyCOGS (d : EngineData) : Option ℚ :=
  match d.menus, d.salesModel with
  | .arr ms, some sm =>
    ms.foldl (fun total m =>
      jsAdd total (jsMul (some (calculateVariableCostPerUnit m))
        sm.forecastDailyUnits)) (some 0)
  | _, _ => none

/-- `FinanceEngine.calculateMonthlyFixedCosts` (part_001:438-442). -/
def calculateMonthlyFixedCosts (d : EngineData) : Option ℚ :=
  match d.fixedCosts with
  | .arr cs => cs.foldl (fun total c => jsAdd total c.amountPerMonth) (some 0)
  | _ => none

/-- `FinanceEngine.calculateMonthlyLaborCosts` (part_001:444-449):
`wagePerHour * (hoursPerDay * daysPerWeek * 4.33)` per item, unguarded. -/
def calculateMonthlyLaborCosts (d : EngineData) : Option ℚ :=
  match d.labor with
  | .arr ls =>
    ls.foldl (fun total l =>
      jsAdd total (jsMul l.wagePerHour
        (jsMul (jsMul l.hoursPerDay l.daysPerWeek) (some (433/100))))) (some 0)
  | _ => none

/-- Daily cost of one utility item (body of
`FinanceEngine.calculateMonthlyUtilityCosts`, part_001:451-465); the
truthiness guards (`utility.kw && ...`) make each branch total. -/
def dailyUtilityCost (u : UtilityItem) : ℚ :=
  if u.type = some "electric" && truthyQ u.kw && truthyQ u.hoursPerDay &&
      truthyQ u.ratePerKwh then
    u.kw.getD 0 * u.hoursPerDay.getD 0 * u.ratePerKwh.getD 0
  else if u.type = some "lpg" && truthyQ u.kgPerBatch &&
      truthyQ u.batchesPerDay && truthyQ u.ratePerKg then
    u.kgPerBatch.getD 0 * u.batchesPerDay.getD 0 * u.ratePerKg.getD 0
  else if u.type = some "water" && truthyQ u.m3PerDay &&
      truthyQ u.ratePerM3 then
    u.m3PerDay.getD 0 * u.ratePerM3.getD 0
  else 0

/-- `FinanceEngine.calculateMonthlyUtilityCosts` (part_001:451-465). -/
def calculateMonthlyUtilityCosts (d : EngineData) : Option ℚ :=
  match d.utilities with
  | .arr us =>
    us.foldl (fun total u => jsAdd total (some (dailyUtilityCost u * 30)))
      (some 0)
  | _ => none

/-- One side (daily or monthly) of the P&L. -/
structure PnLSide where
  revenue : Option ℚ
  cogs : Option ℚ
  grossProfit : Option ℚ
  operatingExpenses : Option ℚ
  operatingProfit : Option ℚ
deriving DecidableEq, Repr

/-- P&L statement returned by `calculatePnL`. -/
structure PnL where
  daily : PnLSide
  monthly : PnLSide
deriving DecidableEq, Repr

/-- `FinanceEngine.calculatePnL` (part_001:315-342). -/
def calculatePnL (d : EngineData) : PnL :=
  let dailyRevenue := calculateDailyRevenue d
  let dailyCOGS := calculateDailyCOGS d
  let monthlyFixedCosts := calculateMonthlyFixedCosts d
  let monthlyLaborCosts := calculateMonthlyLaborCosts d
  let monthlyUtilityCosts := calculateMonthlyUtilityCosts d
  let grossProfitDaily := jsSub (some dailyRevenue) dailyCOGS
  let operatingExpensesDaily :=
    jsDiv (jsAdd (jsAdd monthlyFixedCosts monthlyLaborCosts)
      monthlyUtilityCosts) (some 30)
  let operatingProfitDaily := jsSub grossProfitDaily operatingExpensesDaily
  { daily := {
      revenue := some dailyRevenue
      cogs := dailyCOGS
      grossProfit := grossProfitDaily
      operatingExpenses := operatingExpensesDaily
      operatingProfit := operatingProfitDaily }
    monthly := {
      revenue := some (dailyRevenue * 30)
      cogs := jsMul dailyCOGS (some 30)
      grossProfit := jsMul grossProfitDaily (some 30)
      operatingExpenses :=
        jsAdd (jsAdd monthlyFixedCosts monthlyLaborCosts) monthlyUtilityCosts
      operatingProfit := jsMul operatingProfitDaily (some 30) } }

/-- KPI record (`FinancialMetrics` interface).  Fields that the source
guards with `|| 0` or a `> 0` test are plain `ℚ`; the break-even and safety
figures can be `NaN` when an upstream monthly cost is `NaN`, hence
`Option ℚ`. -/
structure FinancialMetrics where
  revenue : ℚ
  grossProfit : ℚ
  operatingProfit : ℚ
  netProfit : ℚ
  primeCostPct : ℚ
  foodCostPct : ℚ
  laborPct : ℚ
  cmPct : ℚ
  bepUnits : Option ℚ
  bepPerDay : Option ℚ
  safetyMargin : Option ℚ
  avgTicket : ℚ
deriving DecidableEq, Repr

/-- `FinanceEngine.getDefaultFinancialMetrics` (part_001:547-562). -/
def getDefaultFinancialMetrics : FinancialMetrics :=
  { revenue := 0, grossProfit := 0, operatingProfit := 0, netProfit := 0
    primeCostPct := 0, foodCostPct := 0, laborPct := 0, cmPct := 0
    bepUnits := some 0, bepPerDay := some 0, safetyMargin := some 0
    avgTicket := 0 }

/-- `FinanceEngine.calculateKPIs` (part_001:467-545). -/
def calculateKPIs (d : EngineData) (pnl : PnL) : FinancialMetrics :=
  let revenue := pnl.daily.revenue.getD 0
  let grossProfit := pnl.daily.grossProfit.getD 0
  let operatingProfit := pnl.daily.operatingProfit.getD 0
  match d.menus with
  | .arr ms =>
    if ms.isEmpty then getDefaultFinancialMetrics
    else
      let totalCM := ms.foldl (fun total m =>
        match m.price with
        | some p => total + (p - calculateVariableCostPerUnit m)
        | none => total) 0
      let avgCM := totalCM / (ms.length : ℚ)
      let monthlyFixedTotal :=
        jsAdd (jsAdd (calculateMonthlyFixedCosts d)
          (calculateMonthlyLaborCosts d)) (calculateMonthlyUtilityCosts d)
      let bepUnits : Option ℚ :=
        if 0 < avgCM then jsDiv monthlyFixedTotal (some avgCM) else some 0
      let bepPerDay := jsDiv bepUnits (some 30)
      let directLaborCost : ℚ :=
        match d.labor with
        | .arr ls =>
          ((ls.filter (fun l => l.type = some "direct")).foldl (fun total l =>
            match l.wagePerHour, l.hoursPerDay with
            | some w, some h => total + w * h
            | _, _ => total) 0)
        | _ => 0
      let foodCost := pnl.daily.cogs.getD 0
      let primeCost := foodCost + directLaborCost
      let primeCostPct := if 0 < revenue then primeCost / revenue * 100 else 0
      let foodCostPct := if 0 < revenue then foodCost / revenue * 100 else 0
      let laborPct := if 0 < revenue then directLaborCost / revenue * 100 else 0
      let avgMenuPrice :=
        (ms.foldl (fun s m => s + m.price.getD 0) 0) / (ms.length : ℚ)
      let cmPct := if 0 < avgMenuPrice then avgCM / avgMenuPrice * 100 else 0
      let forecastUnits :=
        (Option.bind d.salesModel (fun sm => sm.forecastDailyUnits)).getD 0
      let safetyMargin : Option ℚ :=
        if 0 < forecastUnits then
          jsMul (jsDiv (jsSub (some forecastUnits) bepPerDay)
            (some forecastUnits)) (some 100)
        else some 0
      let avgTicket := if 0 < forecastUnits then revenue / forecastUnits else 0
      { revenue := revenue, grossProfit := grossProfit
        operatingProfit := operatingProfit, netProfit := operatingProfit
        primeCostPct := primeCostPct, foodCostPct := foodCostPct
        laborPct := laborPct, cmPct := cmPct
        bepUnits := bepUnits, bepPerDay := bepPerDay
        safetyMargin := safetyMargin, avgTicket := avgTicket }
  | _ => getDefaultFinancialMetrics

/-- Per-menu economics row returned by `calculateMenuMetrics`. -/
structure MenuMetric where
  id : Option String
  name : Option String
  price : Option ℚ
  vc : ℚ
  cm : Option ℚ
  cmPct : Option ℚ
deriving DecidableEq, Repr

/-- `FinanceEngine.calculateMenuMetrics` (part_001:564-579); unguarded in the
source, only reachable through `compute` after `validateData`. -/
def calculateMenuMetrics (d : EngineData) : List MenuMetric :=
  match d.menus with
  | .arr ms =>
    ms.map (fun m =>
      let vc := calculateVariableCostPerUnit m
      let cm := jsSub m.price (some vc)
      let cmPct := jsMul (jsDiv cm m.price) (some 100)
      { id := m.id, name := m.name, price := m.price
        vc := vc, cm := cm, cmPct := cmPct })
  | _ => []

/-- Sensitivity curve. -/
structure Sensitivity where
  variable_name : String
  series : List (ℚ × ℚ)
deriving DecidableEq, Repr

/-- `FinanceEngine.calculateSensitivity` (part_001:581-593): fixed curve. -/
def calculateSensitivity : Sensitivity :=
  { variable_name := "ingredient_cost"
    series := [(-10, 15), (-5, 15/2), (0, 0), (5, -(15/2)), (10, -15)] }

/-- Computation result of `FinanceEngine.compute` (`computedAt` and
`dataVersion` omitted, see header). -/
structure Report where
  pnl : PnL
  kpis : FinancialMetrics
  menus : List MenuMetric
  sensitivity : Sensitivity
  error : Option String
deriving DecidableEq, Repr

/-- `FinanceEngine.getDefaultComputationResult` (part_001:290-303). -/
def getDefaultComputationResult : Report :=
  { pnl := {
      daily := { revenue := some 0, cogs := some 0, grossProfit := some 0
                 operatingExpenses := some 0, operatingProfit := some 0 }
      monthly := { revenue := some 0, cogs := some 0, grossProfit := some 0
                   operatingExpenses := some 0, operatingProfit := some 0 } }
    kpis := getDefaultFinancialMetrics
    menus := []
    sensitivity := { variable_name := "ingredient_cost", series := [] }
    error := some "Computation failed due to invalid data" }

/-- `FinanceEngine.compute` (part_001:231-255): precheck with
`validateData`, otherwise derive the full report; every exception is caught
at the top level (the embedding is total, so the catch branch is the
`validateData` failure branch). -/
def compute (data : Option EngineData) : Report :=
  if validateData data then
    match data with
    | some d =>
      let pnl := calculatePnL d
      { pnl := pnl
        kpis := calculateKPIs d pnl
        menus := calculateMenuMetrics d
        sensitivity := calculateSensitivity
        error := none }
    | none => getDefaultComputationResult
  else getDefaultComputationResult

/-! ## FinancialDataValidator (`src/src/lib/validation.ts`, lines 16-463)

Each validator collects hard `errors` and soft `warnings` in source order
and reports `isValid := errors.length === 0`.  Error strings are copied
verbatim (template constants such as `MIN_PRICE` interpolated); warning
strings that interpolate a runtime number are kept with the embedded `ℚ`
rendered by `toString` (no claim depends on warning text). -/
structure ValidationResult where
  isValid : Bool
  errors : List String
  warnings : List String
deriving DecidableEq, Repr

/-- `FinancialDataValidator.validateBOMItem` (validation.ts:91-167). -/
def validateBOMItem (b : BOMItem) : ValidationResult :=
  let errors :=
    (if !truthyS b.item then ["Item name is required"] else []) ++
    (match b.qtyG with
     | none => ["Quantity (grams) must be a valid number"]
     | some q => if q < 0 then ["Quantity must be at least 0"] else []) ++
    (match b.unitCostPerKg with
     | none => ["Unit cost per kg must be a valid number"]
     | some c => if c < 0 then ["Unit cost cannot be negative"] else []) ++
    (match b.yieldPercent with
     | none => ["Yield percentage must be a valid number"]
     | some y => if y ≤ 0 then ["Yield percentage must be greater than 0"] else []) ++
    (match b.wastePercent with
     | none => ["Waste percentage must be a valid number"]
     | some w => if w < 0 then ["Waste percentage cannot be negative"] else []) ++
    (match b.packaging with
     | none => []
     | some p =>
       (match p.qtyUnit with
        | none => ["Packaging quantity must be a valid number"]
        | some _ => []) ++
       (match p.unitCost with
        | none => ["Packaging unit cost must be a valid number"]
        | some c => if c < 0 then ["Packaging unit cost cannot be negative"] else []))
  let warnings :=
    (match b.qtyG with
     | some q => if q > 10000 then
        ["Quantity seems high: " ++ toString q ++ "g. Please verify."] else []
     | none => []) ++
    (match b.unitCostPerKg with
     | some c => if c > 1000 then
        ["Unit cost seems high: " ++ toString c ++ " THB/kg. Please verify."] else []
     | none => []) ++
    (match b.yieldPercent with
     | some y => if y > 100 then
        ["Yield percentage (" ++ toString y ++ "%) seems high. Please verify."] else []
     | none => []) ++
    (match b.wastePercent with
     | some w => if w > 50 then
        ["Waste percentage (" ++ toString w ++ "%) seems high. Please verify."] else []
     | none => [])
  { isValid := errors.isEmpty, errors := errors, warnings := warnings }

/-- `FinancialDataValidator.validateMenuItem` (validation.ts:28-89). -/
def validateMenuItem (m : MenuItem) : ValidationResult :=
  let errors :=
    (if !truthyS m.id then ["Menu ID is required and must be a string"] else []) ++
    (if !truthyS m.name then ["Menu name is required and must be a string"] else []) ++
    (match m.price with
     | none => ["Price must be a valid number"]
     | some p => if p < 1/100 then ["Price must be at least 0.01"] else []) ++
    (match m.channelMix with
     | none => ["Channel mix is required"]
     | some c =>
       let total := c.dineIn.getD 0 + c.takeaway.getD 0 + c.delivery.getD 0
       if total ≤ 0 then ["Channel mix total must be greater than 0"] else []) ++
    (match m.bom with
     | .arr xs =>
       ((xs.enum.map (fun bi =>
         (validateBOMItem bi.2).errors.map (fun e =>
           "BOM item " ++ toString (bi.1 + 1) ++ ": " ++ e))).flatten)
     | _ => ["BOM must be an array"])
  let warnings :=
    (match m.price with
     | some p => if p > 10000 then
        ["Price seems high: " ++ toString p ++ ". Please verify."] else []
     | none => []) ++
    (match m.channelMix with
     | some c =>
       let total := c.dineIn.getD 0 + c.takeaway.getD 0 + c.delivery.getD 0
       if total > 3/2 then
        ["Channel mix total (" ++ toString total ++ ") seems high. Please verify."]
       else []
     | none => []) ++
    (match m.bom with
     | .arr xs =>
       ((xs.enum.map (fun bi =>
         (validateBOMItem bi.2).warnings.map (fun w =>
           "BOM item " ++ toString (bi.1 + 1) ++ ": " ++ w))).flatten)
     | _ => [])
  { isValid := errors.isEmpty, errors := errors, warnings := warnings }

/-- `FinancialDataValidator.validateSalesModel` (validation.ts:169-214). -/
def validateSalesModel (s : SalesModel) : ValidationResult :=
  let errors :=
    (match s.forecastDailyUnits with
     | none => ["Daily units forecast must be a valid number"]
     | some f => if f < 1 then ["Daily units forecast must be at least 1"] else []) ++
    (match s.paymentFeePercent with
     | none => ["Payment fee percentage must be a valid number"]
     | some p => if p < 0 then ["Payment fee percentage cannot be negative"] else []) ++
    (match s.deliveryCommissionPercent with
     | none => ["Delivery commission percentage must be a valid number"]
     | some c => if c < 0 then
        ["Delivery commission percentage cannot be negative"] else [])
  let warnings :=
    (match s.forecastDailyUnits with
     | some f => if f > 1000 then
        ["Daily units forecast (" ++ toString f ++ ") seems high. Please verify."]
       else []
     | none => []) ++
    (match s.paymentFeePercent with
     | some p => if p > 10 then
        ["Payment fee (" ++ toString p ++ "%) seems high. Please verify."] else []
     | none => []) ++
    (match s.deliveryCommissionPercent with
     | some c => if c > 50 then
        ["Delivery commission (" ++ toString c ++ "%) seems high. Please verify."]
       else []
     | none => [])
  { isValid := errors.isEmpty, errors := errors, warnings := warnings }

/-- `FinancialDataValidator.validateLaborItem` (validation.ts:216-274). -/
def validateLaborItem (l : LaborItem) : ValidationResult :=
  let errors :=
    (if !truthyS l.id then ["Labor ID is required"] else []) ++
    (if !truthyS l.role then ["Role is required"] else []) ++
    (if !(l.type = some "direct" || l.type = some "indirect") then
       ["Type must be either \"direct\" or \"indirect\""] else []) ++
    (match l.wagePerHour with
     | none => ["Wage per hour must be a valid number"]
     | some w => if w < 0 then ["Wage cannot be negative"] else []) ++
    (match l.hoursPerDay with
     | none => ["Hours per day must be a valid number"]
     | some h =>
       (if h < 0 then ["Hours per day must be at least 0"] else []) ++
       (if h > 24 then ["Hours per day cannot exceed 24"] else [])) ++
    (match l.daysPerWeek with
     | none => ["Days per week must be a valid number"]
     | some d =>
       (if d < 0 then ["Days per week must be at least 0"] else []) ++
       (if d > 7 then ["Days per week cannot exceed 7"] else []))
  let warnings :=
    (match l.wagePerHour with
     | some w => if w > 1000 then
        ["Wage (" ++ toString w ++ " THB/hour) seems high. Please verify."] else []
     | none => [])
  { isValid := errors.isEmpty, errors := errors, warnings := warnings }

/-- `FinancialDataValidator.validateUtilityItem` (validation.ts:276-349). -/
def validateUtilityItem (u : UtilityItem) : ValidationResult :=
  let errors :=
    (if !truthyS u.id then ["Utility ID is required"] else []) ++
    (if !(u.type = some "electric" || u.type = some "lpg" ||
          u.type = some "water") then
       ["Type must be \"electric\", \"lpg\", or \"water\""] else []) ++
    (if !truthyS u.device then ["Device name is required"] else []) ++
    (if u.type = some "electric" then
       (match u.kw with
        | none => ["KW rating is required for electric devices"]
        | some k => if k ≤ 0 then ["KW rating must be greater than 0"] else []) ++
       (match u.hoursPerDay with
        | none => ["Hours per day is required for electric devices"]
        | some h => if h < 0 ∨ h > 24 then
            ["Hours per day must be between 0 and 24"] else []) ++
       (match u.ratePerKwh with
        | none => ["Rate per KWh is required for electric devices"]
        | some r => if r < 0 then ["Rate per KWh cannot be negative"] else [])
     else if u.type = some "lpg" then
       (match u.kgPerBatch with
        | none => ["KG per batch is required for LPG devices"]
        | some k => if k ≤ 0 then ["KG per batch must be greater than 0"] else []) ++
       (match u.batchesPerDay with
        | none => ["Batches per day is required for LPG devices"]
        | some b => if b < 0 then ["Batches per day cannot be negative"] else []) ++
       (match u.ratePerKg with
        | none => ["Rate per KG is required for LPG devices"]
        | some r => if r < 0 then ["Rate per KG cannot be negative"] else [])
     else if u.type = some "water" then
       (match u.m3PerDay with
        | none => ["M3 per day is required for water devices"]
        | some m => if m < 0 then ["M3 per day cannot be negative"] else []) ++
       (match u.ratePerM3 with
        | none => ["Rate per M3 is required for water devices"]
        | some r => if r < 0 then ["Rate per M3 cannot be negative"] else [])
     else [])
  { isValid := errors.isEmpty, errors := errors, warnings := [] }

/-- `FinancialDataValidator.validateFixedCost` (validation.ts:351-381). -/
def validateFixedCost (c : FixedCost) : ValidationResult :=
  let errors :=
    (if !truthyS c.id then ["Fixed cost ID is required"] else []) ++
    (if !truthyS c.name then ["Fixed cost name is required"] else []) ++
    (match c.amountPerMonth with
     | none => ["Amount per month must be a valid number"]
     | some a => if a < 0 then ["Amount per month cannot be negative"] else [])
  let warnings :=
    (match c.amountPerMonth with
     | some a => if a > 100000 then
        ["Amount per month (" ++ toString a ++ " THB) seems high. Please verify."]
       else []
     | none => [])
  { isValid := errors.isEmpty, errors := errors, warnings := warnings }

/-! ## FinanceEngine: stateful data-management methods

`EngineState` models the engine instance; `saveCalls` counts invocations of
`localStorage.setItem` for the data key (one per `save()` call) and
`saveSuccesses` those that did not throw.  `FinanceEngine.save`
(part_001:596-607) catches storage exceptions internally and *never*
re-throws, so from the caller's point of view `save()` always returns
normally; the `ok` flag passed to the modelled operations says whether the
underlying storage write succeeds. -/
structure Scenario where
  id : String
  name : String
deriving DecidableEq, Repr

/-- The engine instance state (`this.data`, `this.scenarios`, plus the
persistence-effect counters described above). -/
structure EngineState where
  data : Option EngineData
  scenarios : List Scenario
  saveCalls : Nat
  saveSuccesses : Nat
deriving DecidableEq, Repr

/-- `FinanceEngine.save` (part_001:596-607): attempt the storage write; a
storage failure is caught and swallowed, so the engine state other than the
effect counters is unchanged and no exception escapes. -/
def engineSave (ok : Bool) (e : EngineState) : EngineState :=
  { e with saveCalls := e.saveCalls + 1
           saveSuccesses := e.saveSuccesses + (if ok then 1 else 0) }

/-- JS object spread `{...m, ...u}` for menu updates (`FinanceEngine.
updateMenu`, part_001:705-711): a field present in the update payload
overrides the stored one. -/
def mergeMenu (m u : MenuItem) : MenuItem :=
  { id := match u.id with | some s => some s | none => m.id
    name := match u.name with | some s => some s | none => m.name
    price := match u.price with | some p => some p | none => m.price
    channelMix := match u.channelMix with | some c => some c | none => m.channelMix
    bom := match u.bom with | .missing => m.bom | b => b }

/-- Replace the first menu whose id strictly equals `menuId` by its merge
with the update payload (the `findIndex` + assignment of
`FinanceEngine.updateMenu`, expressed recursively). -/
def updateMenuList (menuId : String) (u : MenuItem) : List MenuItem → List MenuItem
  | [] => []
  | m :: rest =>
    if m.id = some menuId then mergeMenu m u :: rest
    else m :: updateMenuList menuId u rest

/-- `FinanceEngine.updateMenu` (part_001:705-711): merge-update the first
matching menu and save; do nothing when no menu matches.  `none` models the
`TypeError` thrown when `this.data` is `null` or `this.data.menus` is not an
array (`findIndex` on a non-array). -/
def engineUpdateMenu (ok : Bool) (e : EngineState) (menuId : String)
    (u : MenuItem) : Option EngineState :=
  match e.data with
  | none => none
  | some d =>
    match d.menus with
    | .arr ms =>
      if ms.any (fun m => m.id = some menuId) then
        some (engineSave ok
          { e with data := some { d with menus := .arr (updateMenuList menuId u ms) } })
      else some e
    | _ => none

/-- `FinanceEngine.addMenu` (part_001:714-724): initialise a falsy `menus`
field to `[]`, refuse to duplicate an existing id, otherwise push and save.
`none` models the `TypeError` of calling `.some` on a non-array. -/
def engineAddMenu (ok : Bool) (e : EngineState) (menu : MenuItem) :
    Option EngineState :=
  match e.data with
  | none => none
  | some d =>
    match d.menus with
    | .missing =>
      some (engineSave ok { e with data := some { d with menus := .arr [menu] } })
    | .notArr => none
    | .arr ms =>
      if ms.any (fun m => m.id = menu.id) then some e
      else
        some (engineSave ok
          { e with data := some { d with menus := .arr (ms ++ [menu]) } })

/-- JS object spread `{...s, ...u}` for sales-model updates. -/
def mergeSalesModel (s u : SalesModel) : SalesModel :=
  { forecastDailyUnits :=
      match u.forecastDailyUnits with | some f => some f | none => s.forecastDailyUnits
    paymentFeePercent :=
      match u.paymentFeePercent with | some p => some p | none => s.paymentFeePercent
    deliveryCommissionPercent :=
      match u.deliveryCommissionPercent with
      | some c => some c
      | none => s.deliveryCommissionPercent }

/-- `FinanceEngine.updateSalesModel` (part_001:744-747): spread-merge and
save; `none` models the `TypeError` on a `null` dataset.  A missing
`salesModel` spreads as the empty object, i.e. the update payload itself. -/
def engineUpdateSalesModel (ok : Bool) (e : EngineState) (u : SalesModel) :
    Option EngineState :=
  match e.data with
  | none => none
  | some d =>
    let merged := match d.salesModel with
      | some s => mergeSalesModel s u
      | none => u
    some (engineSave ok { e with data := some { d with salesModel := some merged } })

/-- `FinanceEngine.updateUtilities` (part_001:749-752): wholesale assignment
and save. -/
def engineUpdateUtilities (ok : Bool) (e : EngineState) (us : List UtilityItem) :
    Option EngineState :=
  match e.data with
  | none => none
  | some d => some (engineSave ok { e with data := some { d with utilities := .arr us } })

/-- `FinanceEngine.updateLabor` (part_001:754-757). -/
def engineUpdateLabor (ok : Bool) (e : EngineState) (ls : List LaborItem) :
    Option EngineState :=
  match e.data with
  | none => none
  | some d => some (engineSave ok { e with data := some { d with labor := .arr ls } })

/-- `FinanceEngine.updateFixedCosts` (part_001:759-762). -/
def engineUpdateFixedCosts (ok : Bool) (e : EngineState) (cs : List FixedCost) :
    Option EngineState :=
  match e.data with
  | none => none
  | some d => some (engineSave ok { e with data := some { d with fixedCosts := .arr cs } })

/-- Parsed import document (`{ data, scenarios }`); the surrounding
`Option` in `engineImportJSON`'s argument models whether `JSON.parse`
succeeded (`none` = unparseable or non-string input). -/
structure ImportPayload where
  data : Option EngineData
  scenarios : Option (List Scenario)
deriving DecidableEq, Repr

/-- Result record of `importJSON` / `importData`. -/
structure ImportResult where
  success : Bool
  error : Option String
deriving DecidableEq, Repr

/-- `FinanceEngine.importJSON` (part_001:642-694): reject unparseable input,
missing `data`/`scenarios`, non-array collections, or data failing
`validateData` (in which case the backup is restored); on success assign and
save.  The exact exception text interpolated into the parse-failure message
is abstracted. -/
def engineImportJSON (ok : Bool) (e : EngineState)
    (payload : Option ImportPayload) : EngineState × ImportResult :=
  match payload with
  | none => (e, { success := false, error := some "JSON parsing failed" })
  | some p =>
    match p.data, p.scenarios with
    | some d, some sc =>
      if d.menus.isArr && d.utilities.isArr && d.labor.isArr &&
          d.fixedCosts.isArr then
        if validateData (some d) then
          (engineSave ok { e with data := some d, scenarios := sc },
           { success := true, error := none })
        else
          (e, { success := false, error := some "Imported data failed validation" })
      else
        (e, { success := false
              error := some "Invalid data structure: arrays expected for menus, utilities, labor, and fixedCosts" })
    | _, _ =>
      (e, { success := false
            error := some "Invalid data structure: missing data or scenarios" })

/-! ## StateManager (`src/src/lib/validation.ts`, lines 494-1627)

The manager is single-threaded: each public mutation runs synchronously and
the `updateState` queue drains at the next event-loop turn, before any other
user action, so the queued `LOADING` / `ERROR` / `DATA` updates are applied
here in their queued order.  Only the observable state the claims are about
is modelled: the engine (the canonical dataset), the `error` and `isLoading`
fields of `AppState`, the `lastSavedDataString` dedup snapshot (stored as
the dataset value itself, see the stringify convention in the header), the
`isSyncInProgress` guard, whether a debounced sync timer is pending, and a
counter of `FinanceEngine.compute` invocations.  The mirror copies
`state.data` / `state.computationResult`, the subscriber notifications and
the validation cache are presentation-side and are not modelled.  Dynamic
exception messages interpolated by `formatError` are abstracted to the
fixed text "internal error". -/
structure SMState where
  engine : EngineState
  error : Option String
  isLoading : Bool
  syncInProgress : Bool
  syncTimerPending : Bool
  lastSaved : Option (Option EngineData)
  computeCount : Nat
deriving DecidableEq, Repr

/-- Entry of `StateManager.syncAfterDataChange` (validation.ts:733-763): a
re-entrant trigger while a sync is running is dropped (only a
`LOADING false` update is emitted, which leaves `error` untouched);
otherwise the pending debounce timer is reset, leaving exactly one pending
timer. -/
def syncTrigger (sm : SMState) : SMState :=
  if sm.syncInProgress then { sm with isLoading := false }
  else { sm with syncTimerPending := true }

/-- Body of the debounced sync cycle (the `setTimeout` callback of
`syncAfterDataChange`, validation.ts:751-863): mark the sync in progress,
short-circuit on a null dataset, take the no-op fast path when the
serialized dataset equals the last-saved snapshot, otherwise persist
(recording the snapshot — `FinanceEngine.save` never throws, see
`engineSave`), reload, recompute and publish; always clear `isLoading` and
the in-progress flag.  The publication of `DATA_UPDATE` /
`COMPUTATION_UPDATE` (skipAuto) and the validation-cache step only touch
unmodelled presentation state. -/
def syncCycleBody (ok : Bool) (sm : SMState) : SMState :=
  let sm1 := { sm with syncTimerPending := false, syncInProgress := true }
  match sm1.engine.data with
  | none => { sm1 with isLoading := false, syncInProgress := false }
  | some d =>
    if sm1.lastSaved = some (some d) then
      { sm1 with isLoading := false, syncInProgress := false }
    else
      let sm2 := { sm1 with engine := engineSave ok sm1.engine
                            lastSaved := some (some d) }
      let sm3 := { sm2 with computeCount := sm2.computeCount + 1 }
      { sm3 with isLoading := false, syncInProgress := false }

/-- `StateManager.autoSave` (validation.ts:1429-1450): persist only when the
serialized dataset differs from the last-saved snapshot. -/
def autoSaveModel (ok : Bool) (sm : SMState) : SMState :=
  if sm.lastSaved = some sm.engine.data then sm
  else { sm with engine := engineSave ok sm.engine
                 lastSaved := some sm.engine.data }

/-- `StateManager.forceSave` (validation.ts:1453-1475): skip when the
serialized dataset equals a previously recorded snapshot, else save and
record the snapshot (unconditionally after the never-throwing
`engine.save`). -/
def forceSaveModel (ok : Bool) (sm : SMState) : SMState :=
  if sm.lastSaved = some sm.engine.data then sm
  else { sm with engine := engineSave ok sm.engine
                 lastSaved := some sm.engine.data }

/-- `StateManager.computeAndValidate` (validation.ts:1168-1194): skip when
there is no data, otherwise run `FinanceEngine.compute` and clear
loading. -/
def computeAndValidateModel (sm : SMState) : SMState :=
  match sm.engine.data with
  | none => { sm with isLoading := false }
  | some _ => { sm with computeCount := sm.computeCount + 1, isLoading := false }

/-- The `getData()?.menus?.some(m => m.id === menuId)` probe of
`StateManager.updateMenu` (validation.ts:909): optional chaining yields a
falsy `undefined` for a missing dataset or menus field, but calling `.some`
on a present non-array throws (`none`). -/
def menusHasId (data : Option EngineData) (menuId : String) : Option Bool :=
  match data with
  | none => some false
  | some d =>
    match d.menus with
    | .missing => some false
    | .notArr => none
    | .arr ms => some (ms.any (fun m => m.id = some menuId))

/-- `StateManager.updateMenu` (validation.ts:890-946): set loading, validate
the payload (abort with a joined error message on failure), delegate to
`FinanceEngine.updateMenu`, force a save, insert via `FinanceEngine.addMenu`
when the id did not match an existing menu (the fallback menu object fills
missing fields with defaults), publish and trigger the sync path, always
clearing `isLoading`.  Exceptions from the engine are caught and reported;
exceptions inside the `addMenu` fallback are swallowed. -/
def menuToAdd (menuId : String) (u : MenuItem) : MenuItem :=
  { id := some menuId
    name := some (match u.name with
      | some s => if s = "" then "เมนูใหม่ " ++ menuId else s
      | none => "เมนูใหม่ " ++ menuId)
    price := some (u.price.getD 0)
    channelMix := some (u.channelMix.getD
      { dineIn := some (7/10), takeaway := some (1/5), delivery := some (1/10) })
    bom := match u.bom with | .missing => .arr [] | b => b }

/-- See `menuToAdd` for the fallback construction; this is the operation
itself. -/
def smUpdateMenu (ok : Bool) (sm : SMState) (menuId : String) (u : MenuItem) :
    SMState :=
  let sm1 := { sm with error := none, isLoading := true }
  let vr := validateMenuItem u
  if !vr.isValid then
    { sm1 with
        error := some ("Menu validation failed: " ++
          String.intercalate ", " vr.errors)
        isLoading := false }
  else
    match engineUpdateMenu ok sm1.engine menuId u with
    | none =>
      { sm1 with error := some "Failed to update menu: internal error"
                 isLoading := false }
    | some eng1 =>
      let eng2 := engineSave ok eng1
      match menusHasId eng2.data menuId with
      | none =>
        { sm1 with engine := eng2
                   error := some "Failed to update menu: internal error"
                   isLoading := false }
      | some existing =>
        let eng3 :=
          if existing then eng2
          else
            match engineAddMenu ok eng2 (menuToAdd menuId u) with
            | some e => e
            | none => eng2
        let sm2 := syncTrigger { sm1 with engine := eng3 }
        { sm2 with isLoading := false }

/-- `StateManager.addMenu` (validation.ts:949-991): validate, delegate to
`FinanceEngine.addMenu`, publish and trigger the sync path. -/
def smAddMenu (ok : Bool) (sm : SMState) (u : MenuItem) : SMState :=
  let sm1 := { sm with error := none, isLoading := true }
  let vr := validateMenuItem u
  if !vr.isValid then
    { sm1 with
        error := some ("Menu validation failed: " ++
          String.intercalate ", " vr.errors)
        isLoading := false }
  else
    match engineAddMenu ok sm1.engine u with
    | none =>
      { sm1 with error := some "Failed to add menu: internal error"
                 isLoading := false }
    | some eng1 =>
      let sm2 := syncTrigger { sm1 with engine := eng1 }
      { sm2 with isLoading := false }

/-- `StateManager.updateSalesModel` (validation.ts:993-1019). -/
def smUpdateSalesModel (ok : Bool) (sm : SMState) (u : SalesModel) : SMState :=
  let sm1 := { sm with error := none, isLoading := true }
  let vr := validateSalesModel u
  if !vr.isValid then
    { sm1 with
        error := some ("Sales model validation failed: " ++
          String.intercalate ", " vr.errors)
        isLoading := false }
  else
    match engineUpdateSalesModel ok sm1.engine u with
    | none =>
      { sm1 with error := some "Failed to update sales model: internal error"
                 isLoading := false }
    | some eng1 =>
      let sm2 := syncTrigger { sm1 with engine := eng1 }
      { sm2 with isLoading := false }

/-- `StateManager.updateUtilities` (validation.ts:1021-1055): validate every
item; on any hard error join the errors of the invalid results and abort. -/
def smUpdateUtilities (ok : Bool) (sm : SMState) (us : List UtilityItem) :
    SMState :=
  let sm1 := { sm with error := none, isLoading := true }
  let vrs := us.map validateUtilityItem
  if vrs.any (fun r => !r.isValid) then
    { sm1 with
        error := some ("Utility validation failed: " ++
          String.intercalate ", "
            (((vrs.filter (fun r => !r.isValid)).map (fun r => r.errors)).flatten))
        isLoading := false }
  else
    match engineUpdateUtilities ok sm1.engine us with
    | none =>
      { sm1 with error := some "Failed to update utilities: internal error"
                 isLoading := false }
    | some eng1 =>
      let sm2 := syncTrigger { sm1 with engine := eng1 }
      { sm2 with isLoading := false }

/-- `StateManager.updateLabor` (validation.ts:1057-1091). -/
def smUpdateLabor (ok : Bool) (sm : SMState) (ls : List LaborItem) : SMState :=
  let sm1 := { sm with error := none, isLoading := true }
  let vrs := ls.map validateLaborItem
  if vrs.any (fun r => !r.isValid) then
    { sm1 with
        error := some ("Labor validation failed: " ++
          String.intercalate ", "
            (((vrs.filter (fun r => !r.isValid)).map (fun r => r.errors)).flatten))
        isLoading := false }
  else
    match engineUpdateLabor ok sm1.engine ls with
    | none =>
      { sm1 with error := some "Failed to update labor: internal error"
                 isLoading := false }
    | some eng1 =>
      let sm2 := syncTrigger { sm1 with engine := eng1 }
      { sm2 with isLoading := false }

/-- `StateManager.updateFixedCosts` (validation.ts:1093-1127). -/
def smUpdateFixedCosts (ok : Bool) (sm : SMState) (cs : List FixedCost) :
    SMState :=
  let sm1 := { sm with error := none, isLoading := true }
  let vrs := cs.map validateFixedCost
  if vrs.any (fun r => !r.isValid) then
    { sm1 with
        error := some ("Fixed cost validation failed: " ++
          String.intercalate ", "
            (((vrs.filter (fun r => !r.isValid)).map (fun r => r.errors)).flatten))
        isLoading := false }
  else
    match engineUpdateFixedCosts ok sm1.engine cs with
    | none =>
      { sm1 with error := some "Failed to update fixed costs: internal error"
                 isLoading := false }
    | some eng1 =>
      let sm2 := syncTrigger { sm1 with engine := eng1 }
      { sm2 with isLoading := false }

/-- `StateManager.importData` (validation.ts:1224-1258): set loading,
delegate to `FinanceEngine.importJSON`; on success publish a full
`DATA_UPDATE` (which auto-saves) and recompute, on failure surface the
engine's error message. -/
def smImportData (ok : Bool) (sm : SMState) (payload : Option ImportPayload) :
    SMState × ImportResult :=
  let sm1 := { sm with error := none, isLoading := true }
  let r := engineImportJSON ok sm1.engine payload
  if r.2.success then
    let sm2 := { sm1 with engine := r.1 }
    let sm3 := autoSaveModel ok sm2
    (computeAndValidateModel sm3, r.2)
  else
    ({ sm1 with engine := r.1
                error := some (r.2.error.getD "Import failed")
                isLoading := false }, r.2)

/-! ## Spec-side definitions and helper lemmas -/

/-- A BOM line is well typed when the fields its branch reads are numbers
(packaging lines: `qtyUnit`, `unitCost`; ingredient lines: the four numeric
ingredient fields). -/
def wellTypedBOMItem (b : BOMItem) : Bool :=
  match b.packaging with
  | some p => p.qtyUnit.isSome && p.unitCost.isSome
  | none =>
    b.qtyG.isSome && b.unitCostPerKg.isSome && b.yieldPercent.isSome &&
      b.wastePercent.isSome

/-- Per-line cost exactly as the specification words it: packaging lines
contribute `qtyUnit × unitCost`; ingredient lines with `yieldPercent ≤ 0`
contribute zero; other ingredient lines contribute
`(qtyG/1000) × (1 + max(0,wastePercent)/100) / (yieldPercent/100) ×
unitCostPerKg`.  (Spec-side definition, to be compared with
`calculateVariableCostPerUnit`.) -/
def spec_bomLineCost (b : BOMItem) : ℚ :=
  match b.packaging with
  | some p => p.qtyUnit.getD 0 * p.unitCost.getD 0
  | none =>
    if b.yieldPercent.getD 0 ≤ 0 then 0
    else b.qtyG.getD 0 / 1000 * (1 + max 0 (b.wastePercent.getD 0) / 100) /
      (b.yieldPercent.getD 0 / 100) * b.unitCostPerKg.getD 0

/-- Spec-side daily revenue contribution of one menu: `price ×
forecastDailyUnits × (max(0,dineIn) + max(0,takeaway) + max(0,delivery))`. -/
def spec_menuDailyRevenue (f : ℚ) (m : MenuItem) : ℚ :=
  m.price.getD 0 * f *
    (max 0 ((m.channelMix.getD ⟨none, none, none⟩).dineIn.getD 0) +
     max 0 ((m.channelMix.getD ⟨none, none, none⟩).takeaway.getD 0) +
     max 0 ((m.channelMix.getD ⟨none, none, none⟩).delivery.getD 0))

/-- A menu is well typed for the revenue computation when its price and all
three channel-mix components are numbers. -/
def wellTypedMenu (m : MenuItem) : Bool :=
  m.price.isSome &&
    (match m.channelMix with
     | some c => c.dineIn.isSome && c.takeaway.isSome && c.delivery.isSome
     | none => false)

/-- A left fold whose step adds a per-element amount is the sum of those
amounts. -/
theorem foldl_add_eq_sum {α : Type} (f : ℚ → α → ℚ) (g : α → ℚ) :
    ∀ (xs : List α), (∀ t b, b ∈ xs → f t b = t + g b) →
    ∀ a : ℚ, xs.foldl f a = a + (xs.map g).sum := by
  intro xs
  induction xs with
  | nil => intro _ a; simp
  | cons x rest ih =>
    intro h a
    simp only [List.foldl_cons, List.map_cons, List.sum_cons]
    rw [h a x (by simp), ih (fun t b hb => h t b (List.mem_cons_of_mem _ hb))]
    ring

/-- `calculateVariableCostPerUnit` agrees with the specification's per-line
formula on every menu whose BOM is an array of well-typed lines. -/
theorem vc_eq_spec_sum (m : MenuItem) (xs : List BOMItem)
    (hbom : m.bom = .arr xs) (hwt : ∀ b ∈ xs, wellTypedBOMItem b = true) :
    calculateVariableCostPerUnit m = (xs.map spec_bomLineCost).sum := by
  unfold calculateVariableCostPerUnit
  rw [hbom]
  refine (foldl_add_eq_sum _ spec_bomLineCost xs ?_ 0).trans (zero_add _)
  intro t b hb
  have hw := hwt b hb
  unfold wellTypedBOMItem at hw
  unfold spec_bomLineCost
  cases hp : b.packaging with
  | some p =>
    rw [hp] at hw
    obtain ⟨qu, hqu⟩ := Option.isSome_iff_exists.mp (by
      simp only [Bool.and_eq_true] at hw; exact hw.1)
    obtain ⟨uc, huc⟩ := Option.isSome_iff_exists.mp (by
      simp only [Bool.and_eq_true] at hw; exact hw.2)
    simp [hqu, huc]
  | none =>
    rw [hp] at hw
    simp only [Bool.and_eq_true, Option.isSome_iff_exists] at hw
    obtain ⟨⟨⟨⟨q, hq⟩, ⟨ucpk, hucpk⟩⟩, ⟨yp, hyp⟩⟩, ⟨wp, hwp⟩⟩ := hw
    simp only [hq, hucpk, hyp, hwp, Option.getD_some]
    by_cases hy : yp ≤ 0
    · simp [hy]
    · simp [hy]

/-! ## Concrete scenario data -/

/-- Ingredient line of the spec's costing scenario:
`{qtyG:100, unitCostPerKg:50, yieldPercent:90, wastePercent:5}`. -/
def bomIngredientC1 : BOMItem :=
  { item := some "ingredient", qtyG := some 100, unitCostPerKg := some 50
    yieldPercent := some 90, wastePercent := some 5, packaging := none }

/-- Packaging line of the spec's costing scenario:
`{qtyUnit:1, unitCost:2}`. -/
def bomPackagingC1 : BOMItem :=
  { item := some "packaging", qtyG := some 0, unitCostPerKg := some 0
    yieldPercent := some 100, wastePercent := some 0
    packaging := some { qtyUnit := some 1, unitCost := some 2 } }

/-- The spec's costing-scenario menu (price 100). -/
def menuC1a : MenuItem :=
  { id := some "menu1", name := some "Test menu", price := some 100
    channelMix := some { dineIn := some (7/10), takeaway := some (1/5), delivery := some (1/10) }
    bom := .arr [bomIngredientC1, bomPackagingC1] }

/-- Same menu with `yieldPercent := 0` on the ingredient line. -/
def menuC1b : MenuItem :=
  { menuC1a with
      bom := .arr [{ bomIngredientC1 with yieldPercent := some 0 },
                   bomPackagingC1] }

/-! ## Claim C1 -/

/-- C1 counterexample: on the spec's scenario menu with `yieldPercent := 0`
on the ingredient line, `calculateVariableCostPerUnit` returns 2 (the
packaging line still contributes `1 × 2`), not 0 as the claim's second
scenario states. -/
theorem claim_C1_counterexample :
    calculateVariableCostPerUnit menuC1b = 2 ∧ (2 : ℚ) ≠ 0 := by
  constructor
  · norm_num [calculateVariableCostPerUnit, menuC1b, menuC1a, bomIngredientC1,
      bomPackagingC1]
  · norm_num

/-- C1 (amended): for every menu item with a well-typed BOM, the variable
cost per unit computed by `calculateVariableCostPerUnit` equals the sum over
its BOM lines of: `qtyUnit × unitCost` when the line has a packaging field;
zero when the line is an ingredient line with `yieldPercent ≤ 0`; and
`(qtyG/1000) × (1 + max(0,wastePercent)/100) / (yieldPercent/100) ×
unitCostPerKg` otherwise.  For the scenario BOM the result is `47/6 ≈ 7.83`,
and with `yieldPercent := 0` on the ingredient the result is 2 (the
packaging cost — the ingredient contributes zero, without an exception). -/
theorem claim_C1_thm :
    (∀ (m : MenuItem) (xs : List BOMItem), m.bom = .arr xs →
      (∀ b ∈ xs, wellTypedBOMItem b = true) →
      calculateVariableCostPerUnit m = (xs.map spec_bomLineCost).sum) ∧
    calculateVariableCostPerUnit menuC1a = 47/6 ∧
    calculateVariableCostPerUnit menuC1b = 2 := by
  refine ⟨vc_eq_spec_sum, ?_, ?_⟩
  · norm_num [calculateVariableCostPerUnit, menuC1a, bomIngredientC1,
      bomPackagingC1]
  · norm_num [calculateVariableCostPerUnit, menuC1b, menuC1a, bomIngredientC1,
      bomPackagingC1]

/-- C1 witness: the universally quantified part of `claim_C1_thm`
instantiated at the concrete scenario menu. -/
theorem claim_C1_witness :
    calculateVariableCostPerUnit menuC1a =
      ([bomIngredientC1, bomPackagingC1].map spec_bomLineCost).sum :=
  claim_C1_thm.1 menuC1a [bomIngredientC1, bomPackagingC1] rfl (by decide)

/-! ## Claim C2 -/

/-- Dataset passing the engine's precheck although `forecastDailyUnits` is
the negative number `-5`: the code only checks `typeof ... === 'number'`. -/
def dataC2 : EngineData :=
  { menus := .arr [menuC1a]
    salesModel := some { forecastDailyUnits := some (-5), paymentFeePercent := some (3/2), deliveryCommissionPercent := some 25 }
    utilities := .arr []
    labor := .arr []
    fixedCosts := .arr [] }

/-- C2 counterexample: a dataset whose `forecastDailyUnits` is numeric but
negative passes `validateData`, so `compute` returns a normally derived
report (no error tag), not the all-zero default report the claim
prescribes for a non-"numeric non-negative" forecast. -/
theorem claim_C2_counterexample :
    dataC2.salesModel = some { forecastDailyUnits := some (-5), paymentFeePercent := some (3/2), deliveryCommissionPercent := some 25 } ∧
    (-5 : ℚ) < 0 ∧
    validateData (some dataC2) = true ∧
    (compute (some dataC2)).error = none ∧
    compute (some dataC2) ≠ getDefaultComputationResult := by
  refine ⟨rfl, by norm_num, by decide, rfl, ?_⟩
  intro h
  have := congrArg Report.error h
  rw [show (compute (some dataC2)).error = none from rfl] at this
  simp [getDefaultComputationResult] at this

/-- C2 (amended): `compute` is a total function (the embedding of the
top-level try/catch — it never propagates an exception), and it returns the
all-zero default report tagged with an error string exactly when the
dataset fails `validateData`, i.e. when the menu list is absent, non-array
or empty, the sales model is absent or its `forecastDailyUnits` is not
numeric (the sign is *not* checked), or any of utilities/labor/fixedCosts
is not array-typed. -/
theorem claim_C2_thm (data : Option EngineData) :
    compute data = getDefaultComputationResult ↔ validateData data = false := by
  unfold compute
  by_cases h : validateData data
  · rw [if_pos h]
    cases data with
    | none => simp [validateData] at h
    | some d =>
      simp only [h]
      constructor
      · intro he
        have := congrArg Report.error he
        simp [getDefaultComputationResult] at this
      · intro hf
        exact absurd hf (by simp)
  · rw [if_neg h]
    simp only [Bool.not_eq_true] at h
    simp [h]

/-! ## Claim C5 -/

/-- First menu of the revenue scenario: price 100, channel mix summing to
1.0. -/
def menuC5a : MenuItem :=
  { id := some "m1", name := some "A", price := some 100
    channelMix := some { dineIn := some (7/10), takeaway := some (1/5), delivery := some (1/10) }
    bom := .arr [] }

/-- Second menu of the revenue scenario: price 150, channel mix summing to
1.0. -/
def menuC5b : MenuItem :=
  { id := some "m2", name := some "B", price := some 150
    channelMix := some { dineIn := some (1/2), takeaway := some (3/10), delivery := some (1/5) }
    bom := .arr [] }

/-- Menu with the negative channel-mix scenario
`{dineIn:-0.1, takeaway:0.5, delivery:0.6}`. -/
def menuC5n : MenuItem :=
  { id := some "m3", name := some "N", price := some 100
    channelMix := some { dineIn := some (-(1/10)), takeaway := some (1/2), delivery := some (3/5) }
    bom := .arr [] }

/-- Two-menu dataset with `forecastDailyUnits := 50`. -/
def dataC5 : EngineData :=
  { menus := .arr [menuC5a, menuC5b]
    salesModel := some { forecastDailyUnits := some 50, paymentFeePercent := some 0, deliveryCommissionPercent := some 0 }
    utilities := .arr [], labor := .arr [], fixedCosts := .arr [] }

/-- One-menu dataset exercising the negative-mix clamping. -/
def dataC5n : EngineData :=
  { dataC5 with menus := .arr [menuC5n] }

/-- C5: for every dataset with a numeric `forecastDailyUnits` and well-typed
menus, daily revenue equals the sum over menus of `price ×
forecastDailyUnits × (max(0,dineIn) + max(0,takeaway) + max(0,delivery))`;
the two-menu scenario yields 12,500 and the negative `dineIn` is clamped to
zero, giving an effective mix sum of 1.1. -/
theorem claim_C5_thm :
    (∀ (d : EngineData) (ms : List MenuItem) (sm : SalesModel) (f : ℚ),
      d.menus = .arr ms → d.salesModel = some sm →
      sm.forecastDailyUnits = some f →
      (∀ m ∈ ms, wellTypedMenu m = true) →
      calculateDailyRevenue d = (ms.map (spec_menuDailyRevenue f)).sum) ∧
    calculateDailyRevenue dataC5 = 12500 ∧
    calculateDailyRevenue dataC5n = 100 * (50 * (11/10)) := by
  refine ⟨?_, ?_, ?_⟩
  · intro d ms sm f hm hsm hf hwt
    unfold calculateDailyRevenue
    simp only [hsm, hf, hm]
    refine (foldl_add_eq_sum _ (spec_menuDailyRevenue f) ms ?_ 0).trans (zero_add _)
    intro t m hmem
    have hw := hwt m hmem
    unfold wellTypedMenu at hw
    simp only [Bool.and_eq_true, Option.isSome_iff_exists] at hw
    obtain ⟨⟨p, hp⟩, hc⟩ := hw
    cases hmix : m.channelMix with
    | none => rw [hmix] at hc; exact absurd hc (by simp)
    | some c =>
      rw [hmix] at hc
      simp only [Bool.and_eq_true, Option.isSome_iff_exists] at hc
      obtain ⟨⟨⟨di, hdi⟩, ⟨ta, hta⟩⟩, ⟨de, hde⟩⟩ := hc
      simp only [hp, hmix, hdi, hta, hde, spec_menuDailyRevenue,
        Option.getD_some]
      ring
  · simp [calculateDailyRevenue, dataC5, menuC5a, menuC5b, max_def]
    norm_num
  · simp [calculateDailyRevenue, dataC5n, dataC5, menuC5n, max_def]
    norm_num

/-- C5 witness: the quantified part of `claim_C5_thm` instantiated at the
two-menu scenario dataset. -/
theorem claim_C5_witness :
    calculateDailyRevenue dataC5 =
      ([menuC5a, menuC5b].map (spec_menuDailyRevenue 50)).sum :=
  claim_C5_thm.1 dataC5 [menuC5a, menuC5b]
    { forecastDailyUnits := some 50, paymentFeePercent := some 0, deliveryCommissionPercent := some 0 }
    50 rfl rfl rfl (by decide)

/-! ## Claim C3 -/

/-- C3: for each of the six validated mutation operations, a payload failing
its validator (`isValid = false`) leaves the whole manager state — in
particular the engine dataset — unchanged except for the `error` field,
which is set to the joined validator errors, and the cleared loading flag;
no sync is scheduled (the timer-pending flag, persistence counters and
compute counter are all part of the preserved state). -/
theorem claim_C3_thm :
    (∀ (ok : Bool) (sm : SMState) (menuId : String) (u : MenuItem),
      (validateMenuItem u).isValid = false →
      smUpdateMenu ok sm menuId u =
        { sm with error := some ("Menu validation failed: " ++
            String.intercalate ", " (validateMenuItem u).errors)
                  isLoading := false }) ∧
    (∀ (ok : Bool) (sm : SMState) (u : MenuItem),
      (validateMenuItem u).isValid = false →
      smAddMenu ok sm u =
        { sm with error := some ("Menu validation failed: " ++
            String.intercalate ", " (validateMenuItem u).errors)
                  isLoading := false }) ∧
    (∀ (ok : Bool) (sm : SMState) (u : SalesModel),
      (validateSalesModel u).isValid = false →
      smUpdateSalesModel ok sm u =
        { sm with error := some ("Sales model validation failed: " ++
            String.intercalate ", " (validateSalesModel u).errors)
                  isLoading := false }) ∧
    (∀ (ok : Bool) (sm : SMState) (us : List UtilityItem),
      (∃ u ∈ us, (validateUtilityItem u).isValid = false) →
      smUpdateUtilities ok sm us =
        { sm with error := some ("Utility validation failed: " ++
            String.intercalate ", "
              ((((us.map validateUtilityItem).filter (fun r => !r.isValid)).map
                (fun r => r.errors)).flatten))
                  isLoading := false }) ∧
    (∀ (ok : Bool) (sm : SMState) (ls : List LaborItem),
      (∃ l ∈ ls, (validateLaborItem l).isValid = false) →
      smUpdateLabor ok sm ls =
        { sm with error := some ("Labor validation failed: " ++
            String.intercalate ", "
              ((((ls.map validateLaborItem).filter (fun r => !r.isValid)).map
                (fun r => r.errors)).flatten))
                  isLoading := false }) ∧
    (∀ (ok : Bool) (sm : SMState) (cs : List FixedCost),
      (∃ c ∈ cs, (validateFixedCost c).isValid = false) →
      smUpdateFixedCosts ok sm cs =
        { sm with error := some ("Fixed cost validation failed: " ++
            String.intercalate ", "
              ((((cs.map validateFixedCost).filter (fun r => !r.isValid)).map
                (fun r => r.errors)).flatten))
                  isLoading := false }) := by
  refine ⟨?_, ?_, ?_, ?_, ?_, ?_⟩
  · intro ok sm menuId u h
    simp [smUpdateMenu, h]
  · intro ok sm u h
    simp [smAddMenu, h]
  · intro ok sm u h
    simp [smUpdateSalesModel, h]
  · intro ok sm us h
    have hany : (us.map validateUtilityItem).any (fun r => !r.isValid) = true := by
      rw [List.any_eq_true]
      obtain ⟨u, hu, hv⟩ := h
      exact ⟨validateUtilityItem u, List.mem_map_of_mem _ hu, by simp [hv]⟩
    simp [smUpdateUtilities, hany]
  · intro ok sm ls h
    have hany : (ls.map validateLaborItem).any (fun r => !r.isValid) = true := by
      rw [List.any_eq_true]
      obtain ⟨l, hl, hv⟩ := h
      exact ⟨validateLaborItem l, List.mem_map_of_mem _ hl, by simp [hv]⟩
    simp [smUpdateLabor, hany]
  · intro ok sm cs h
    have hany : (cs.map validateFixedCost).any (fun r => !r.isValid) = true := by
      rw [List.any_eq_true]
      obtain ⟨c, hc, hv⟩ := h
      exact ⟨validateFixedCost c, List.mem_map_of_mem _ hc, by simp [hv]⟩
    simp [smUpdateFixedCosts, hany]

/-- Menu payload rejected by the validator (price 0 is below the 0.01
minimum). -/
def menuBadC3 : MenuItem :=
  { id := some "x", name := some "X", price := some 0
    channelMix := some { dineIn := some 1, takeaway := some 0, delivery := some 0 }
    bom := .arr [] }

/-- Sales-model payload rejected by the validator (forecast below 1). -/
def salesBadC3 : SalesModel :=
  { forecastDailyUnits := some 0, paymentFeePercent := some 1
    deliveryCommissionPercent := some 10 }

/-- Electric utility payload rejected by the validator (missing `kw`). -/
def utilBadC3 : UtilityItem :=
  { id := some "u1", type := some "electric", device := some "fan"
    kw := none, hoursPerDay := some 2, ratePerKwh := some 5
    kgPerBatch := none, batchesPerDay := none, ratePerKg := none
    m3PerDay := none, ratePerM3 := none }

/-- Labor payload rejected by the validator (negative wage). -/
def laborBadC3 : LaborItem :=
  { id := some "l1", role := some "chef", type := some "direct"
    wagePerHour := some (-1), hoursPerDay := some 8, daysPerWeek := some 5 }

/-- Fixed-cost payload rejected by the validator (negative amount). -/
def fcBadC3 : FixedCost :=
  { id := some "f1", name := some "rent", amountPerMonth := some (-5) }

/-- A concrete manager state used to instantiate the state-machine
theorems. -/
def smSample : SMState :=
  { engine := { data := some dataC5, scenarios := [], saveCalls := 0, saveSuccesses := 0 }
    error := none, isLoading := false, syncInProgress := false
    syncTimerPending := false, lastSaved := none, computeCount := 0 }

/-- C3 witness: all six operations applied to concrete invalid payloads. -/
theorem claim_C3_witness :
    smUpdateMenu true smSample "m9" menuBadC3 =
      { smSample with error := some ("Menu validation failed: " ++
          String.intercalate ", " (validateMenuItem menuBadC3).errors)
                      isLoading := false } ∧
    smAddMenu true smSample menuBadC3 =
      { smSample with error := some ("Menu validation failed: " ++
          String.intercalate ", " (validateMenuItem menuBadC3).errors)
                      isLoading := false } ∧
    smUpdateSalesModel true smSample salesBadC3 =
      { smSample with error := some ("Sales model validation failed: " ++
          String.intercalate ", " (validateSalesModel salesBadC3).errors)
                      isLoading := false } ∧
    smUpdateUtilities true smSample [utilBadC3] =
      { smSample with error := some ("Utility validation failed: " ++
          String.intercalate ", "
            (((([utilBadC3].map validateUtilityItem).filter (fun r => !r.isValid)).map
              (fun r => r.errors)).flatten))
                      isLoading := false } ∧
    smUpdateLabor true smSample [laborBadC3] =
      { smSample with error := some ("Labor validation failed: " ++
          String.intercalate ", "
            (((([laborBadC3].map validateLaborItem).filter (fun r => !r.isValid)).map
              (fun r => r.errors)).flatten))
                      isLoading := false } ∧
    smUpdateFixedCosts true smSample [fcBadC3] =
      { smSample with error := some ("Fixed cost validation failed: " ++
          String.intercalate ", "
            (((([fcBadC3].map validateFixedCost).filter (fun r => !r.isValid)).map
              (fun r => r.errors)).flatten))
                      isLoading := false } :=
  ⟨claim_C3_thm.1 true smSample "m9" menuBadC3 (by simp [validateMenuItem, menuBadC3]),
   claim_C3_thm.2.1 true smSample menuBadC3 (by simp [validateMenuItem, menuBadC3]),
   claim_C3_thm.2.2.1 true smSample salesBadC3 (by simp [validateSalesModel, salesBadC3]),
   claim_C3_thm.2.2.2.1 true smSample [utilBadC3]
     ⟨utilBadC3, by simp, by simp [validateUtilityItem, utilBadC3]⟩,
   claim_C3_thm.2.2.2.2.1 true smSample [laborBadC3]
     ⟨laborBadC3, by simp, by simp [validateLaborItem, laborBadC3]⟩,
   claim_C3_thm.2.2.2.2.2 true smSample [fcBadC3]
     ⟨fcBadC3, by simp, by simp [validateFixedCost, fcBadC3]⟩⟩

/-! ## Claim C4 -/

/-- The claim's rejection conditions on an import payload, worded from the
spec: unparseable JSON, missing `data` or `scenarios`, a non-array
collection, or data failing the engine's dataset validation. -/
def importPayloadBad : Option ImportPayload → Prop
  | none => True
  | some p =>
    p.data = none ∨ p.scenarios = none ∨
      (∃ d, p.data = some d ∧
        (d.menus.isArr = false ∨ d.utilities.isArr = false ∨
         d.labor.isArr = false ∨ d.fixedCosts.isArr = false ∨
         validateData (some d) = false))

/-- C4: every payload satisfying `importPayloadBad` is rejected by
`FinanceEngine.importJSON` with `success = false` and a descriptive error,
leaving the engine's dataset and scenarios untouched, and likewise by
`StateManager.importData`. -/
theorem claim_C4_thm (ok : Bool) (eng : EngineState) (sm : SMState)
    (payload : Option ImportPayload) (hbad : importPayloadBad payload) :
    (engineImportJSON ok eng payload).2.success = false ∧
    (engineImportJSON ok eng payload).2.error.isSome = true ∧
    (engineImportJSON ok eng payload).1 = eng ∧
    (smImportData ok sm payload).2.success = false ∧
    (smImportData ok sm payload).1.engine = sm.engine := by
  have main : ∀ e : EngineState,
      (engineImportJSON ok e payload).2.success = false ∧
      (engineImportJSON ok e payload).2.error.isSome = true ∧
      (engineImportJSON ok e payload).1 = e := by
    intro e
    cases payload with
    | none => simp [engineImportJSON]
    | some p =>
      unfold importPayloadBad at hbad
      rcases hbad with hd | hs | ⟨d, hd, hrest⟩
      · cases hsc : p.scenarios <;> simp [engineImportJSON, hd, hsc]
      · cases hpd : p.data <;> simp [engineImportJSON, hs, hpd]
      · cases hsc : p.scenarios with
        | none => simp [engineImportJSON, hd, hsc]
        | some sc =>
          rcases hrest with hm | hu | hl | hf | hv
          · simp [engineImportJSON, hd, hsc, hm]
          · simp [engineImportJSON, hd, hsc, hu]
          · simp [engineImportJSON, hd, hsc, hl]
          · simp [engineImportJSON, hd, hsc, hf]
          · simp only [engineImportJSON, hd, hsc, hv]
            split <;> simp
  refine ⟨(main eng).1, (main eng).2.1, (main eng).2.2, ?_, ?_⟩
  · unfold smImportData
    simp [(main sm.engine).1]
  · unfold smImportData
    simp [(main sm.engine).1, (main sm.engine).2.2]

/-- Import payload whose dataset is missing `salesModel` (the spec's
scenario). -/
def importBadC4 : ImportPayload :=
  { data := some { menus := .arr [menuC5a], salesModel := none, utilities := .arr [], labor := .arr [], fixedCosts := .arr [] }
    scenarios := some [] }

/-- C4 witness: the theorem instantiated at the missing-`salesModel`
payload. -/
theorem claim_C4_witness :
    (engineImportJSON true smSample.engine (some importBadC4)).2.success = false ∧
    (engineImportJSON true smSample.engine (some importBadC4)).2.error.isSome = true ∧
    (engineImportJSON true smSample.engine (some importBadC4)).1 = smSample.engine ∧
    (smImportData true smSample (some importBadC4)).2.success = false ∧
    (smImportData true smSample (some importBadC4)).1.engine = smSample.engine :=
  claim_C4_thm true smSample.engine smSample (some importBadC4)
    (Or.inr (Or.inr ⟨_, rfl, Or.inr (Or.inr (Or.inr (Or.inr (by decide))))⟩))

/-! ## Claim C6 -/

/-- C6: (i) when the dataset's serialized content equals the snapshot
recorded at the last persist, the sync-cycle body performs no storage write
and no recomputation, leaves the dataset alone and still clears the loading
flag; (ii) the same dedup holds for `forceSave`; (iii)-(iv) two consecutive
sync cycles, or two consecutive force-saves, with no intervening mutation
perform the underlying storage write at most once in total. -/
theorem claim_C6_thm :
    (∀ (ok : Bool) (sm : SMState) (d : EngineData),
      sm.engine.data = some d → sm.lastSaved = some (some d) →
      (syncCycleBody ok sm).engine.saveCalls = sm.engine.saveCalls ∧
      (syncCycleBody ok sm).computeCount = sm.computeCount ∧
      (syncCycleBody ok sm).isLoading = false ∧
      (syncCycleBody ok sm).engine.data = sm.engine.data) ∧
    (∀ (ok : Bool) (sm : SMState),
      sm.lastSaved = some sm.engine.data →
      (forceSaveModel ok sm).engine.saveCalls = sm.engine.saveCalls) ∧
    (∀ (ok1 ok2 : Bool) (sm : SMState),
      (syncCycleBody ok2 (syncCycleBody ok1 sm)).engine.saveCalls ≤
        sm.engine.saveCalls + 1) ∧
    (∀ (ok1 ok2 : Bool) (sm : SMState),
      (forceSaveModel ok2 (forceSaveModel ok1 sm)).engine.saveCalls ≤
        sm.engine.saveCalls + 1) := by
  refine ⟨?_, ?_, ?_, ?_⟩
  · intro ok sm d hd hls
    simp [syncCycleBody, hd, hls]
  · intro ok sm hls
    simp [forceSaveModel, hls]
  · intro ok1 ok2 sm
    cases hd : sm.engine.data with
    | none => simp [syncCycleBody, hd]
    | some d =>
      by_cases hls : sm.lastSaved = some (some d)
      · simp [syncCycleBody, hd, hls]
      · simp [syncCycleBody, hd, hls, engineSave]
  · intro ok1 ok2 sm
    by_cases hls : sm.lastSaved = some sm.engine.data
    · simp [forceSaveModel, hls]
    · simp [forceSaveModel, hls, engineSave]

/-- Manager state whose last-saved snapshot equals its current dataset. -/
def smC6 : SMState := { smSample with lastSaved := some (some dataC5) }

/-- C6 witness: the fast paths taken at a concrete up-to-date state. -/
theorem claim_C6_witness :
    ((syncCycleBody true smC6).engine.saveCalls = smC6.engine.saveCalls ∧
     (syncCycleBody true smC6).computeCount = smC6.computeCount ∧
     (syncCycleBody true smC6).isLoading = false ∧
     (syncCycleBody true smC6).engine.data = smC6.engine.data) ∧
    (forceSaveModel true smC6).engine.saveCalls = smC6.engine.saveCalls :=
  ⟨claim_C6_thm.1 true smC6 dataC5 rfl rfl,
   claim_C6_thm.2.1 true smC6 rfl⟩

/-! ## Claim C7 -/

/-- C7: while `isSyncInProgress` is true, a re-entrant trigger of the sync
path is dropped: it performs no persistence and no recomputation, schedules
nothing (the pending-timer flag, dataset, error and dedup snapshot are all
unchanged), and immediately clears the loading flag.  Overlap-freedom of
two cycles is a consequence of the single-threaded execution model: the
cycle body runs synchronously to completion and re-entrant triggers are
dropped by this guard. -/
theorem claim_C7_thm (sm : SMState) (h : sm.syncInProgress = true) :
    syncTrigger sm = { sm with isLoading := false } ∧
    (syncTrigger sm).engine = sm.engine ∧
    (syncTrigger sm).computeCount = sm.computeCount ∧
    (syncTrigger sm).syncTimerPending = sm.syncTimerPending ∧
    (syncTrigger sm).error = sm.error ∧
    (syncTrigger sm).lastSaved = sm.lastSaved ∧
    (syncTrigger sm).isLoading = false := by
  simp [syncTrigger, h]

/-- Manager state with a sync in progress. -/
def smC7 : SMState := { smSample with syncInProgress := true }

/-- C7 witness: the theorem instantiated at a concrete in-progress state. -/
theorem claim_C7_witness :
    syncTrigger smC7 = { smC7 with isLoading := false } ∧
    (syncTrigger smC7).engine = smC7.engine ∧
    (syncTrigger smC7).computeCount = smC7.computeCount ∧
    (syncTrigger smC7).syncTimerPending = smC7.syncTimerPending ∧
    (syncTrigger smC7).error = smC7.error ∧
    (syncTrigger smC7).lastSaved = smC7.lastSaved ∧
    (syncTrigger smC7).isLoading = false :=
  claim_C7_thm smC7 rfl

/-! ## Claim C8 -/

/-- C8 counterexample: starting from a state that has never persisted
(`lastSaved = none`), running the sync-cycle body with a *failing* storage
write (`ok = false`: one write attempted, zero writes succeed — the
counters show it) still records the dataset as "last persisted", changing
`lastSaved`; the claim says a failed write leaves the recorded hash
unchanged.  The cause: `FinanceEngine.save` catches the storage exception
internally, so the caller's `lastSavedDataString = dataString` line always
runs. -/
theorem claim_C8_counterexample :
    smSample.engine.data = some dataC5 ∧
    smSample.lastSaved = none ∧
    (syncCycleBody false smSample).engine.saveSuccesses =
      smSample.engine.saveSuccesses ∧
    (syncCycleBody false smSample).engine.saveCalls =
      smSample.engine.saveCalls + 1 ∧
    (syncCycleBody false smSample).lastSaved ≠ smSample.lastSaved ∧
    (syncCycleBody false smSample).lastSaved = some (some dataC5) := by
  refine ⟨rfl, rfl, ?_, ?_, ?_, ?_⟩ <;>
    simp [syncCycleBody, smSample, engineSave]

/-- C8 (amended): whenever the sync cycle's persistence step runs (dataset
present and different from the recorded snapshot), the content snapshot is
recorded as "last persisted" *regardless of whether the underlying storage
write succeeds*, because `FinanceEngine.save` swallows storage errors; a
later sync therefore takes the no-op fast path instead of retrying the
write. -/
theorem claim_C8_thm (ok : Bool) (sm : SMState) (d : EngineData)
    (hd : sm.engine.data = some d) (hne : sm.lastSaved ≠ some (some d)) :
    (syncCycleBody ok sm).lastSaved = some (some d) ∧
    (syncCycleBody ok sm).engine.saveCalls = sm.engine.saveCalls + 1 := by
  simp [syncCycleBody, hd, hne, engineSave]

/-- C8 witness: the amended theorem at a concrete state with a failing
storage write. -/
theorem claim_C8_witness :
    (syncCycleBody false smSample).lastSaved = some (some dataC5) ∧
    (syncCycleBody false smSample).engine.saveCalls =
      smSample.engine.saveCalls + 1 :=
  claim_C8_thm false smSample dataC5 rfl (by simp [smSample])

/-! ## Claim C10 -/

/-- C10: for a dataset whose menus have pairwise-distinct ids,
`FinanceEngine.addMenu` with an already-present id returns the engine state
unchanged (in particular no persistence write), and with a fresh id appends
exactly one menu and saves once; in both cases the resulting id list is
still pairwise distinct. -/
theorem claim_C10_thm (ok : Bool) (eng : EngineState) (d : EngineData)
    (ms : List MenuItem) (menu : MenuItem)
    (hd : eng.data = some d) (hm : d.menus = .arr ms)
    (hnodup : (ms.map (fun m => m.id)).Nodup) :
    (menu.id ∈ ms.map (fun m => m.id) →
      engineAddMenu ok eng menu = some eng) ∧
    (menu.id ∉ ms.map (fun m => m.id) →
      engineAddMenu ok eng menu =
        some { eng with
          data := some { d with menus := .arr (ms ++ [menu]) }
          saveCalls := eng.saveCalls + 1
          saveSuccesses := eng.saveSuccesses + (if ok then 1 else 0) } ∧
      ((ms ++ [menu]).map (fun m => m.id)).Nodup) := by
  constructor
  · intro hmem
    have hany : ms.any (fun m => m.id = menu.id) = true := by
      rw [List.any_eq_true]
      obtain ⟨m, hmm, heq⟩ := List.mem_map.mp hmem
      exact ⟨m, hmm, by simp [heq]⟩
    simp [engineAddMenu, hd, hm, hany]
  · intro hnmem
    have hany : ms.any (fun m => m.id = menu.id) = false := by
      rw [List.any_eq_false]
      intro m hmm
      simp only [decide_eq_true_eq]
      intro heq
      exact hnmem (List.mem_map.mpr ⟨m, hmm, heq⟩)
    refine ⟨by simp [engineAddMenu, hd, hm, hany, engineSave], ?_⟩
    rw [List.map_append, List.nodup_append]
    refine ⟨hnodup, by simp, ?_⟩
    intro x hx
    simp only [List.map_cons, List.map_nil, List.mem_singleton]
    intro hxe
    rw [hxe] at hx
    exact hnmem hx

/-- Menu with an id not present in `dataC5`. -/
def menuFreshC10 : MenuItem :=
  { id := some "m7", name := some "Fresh", price := some 30
    channelMix := some { dineIn := some 1, takeaway := some 0, delivery := some 0 }
    bom := .arr [] }

/-- C10 witness: a duplicate-id insertion is a no-op and a fresh-id
insertion appends one menu, at the concrete two-menu dataset. -/
theorem claim_C10_witness :
    engineAddMenu true smSample.engine menuC5a = some smSample.engine ∧
    (engineAddMenu true smSample.engine menuFreshC10 =
      some { smSample.engine with
        data := some { dataC5 with menus := .arr ([menuC5a, menuC5b] ++ [menuFreshC10]) }
        saveCalls := smSample.engine.saveCalls + 1
        saveSuccesses := smSample.engine.saveSuccesses + (if true then 1 else 0) } ∧
     (([menuC5a, menuC5b] ++ [menuFreshC10]).map (fun m => m.id)).Nodup) :=
  ⟨(claim_C10_thm true smSample.engine dataC5 [menuC5a, menuC5b] menuC5a
      rfl rfl (by decide)).1 (by decide),
   (claim_C10_thm true smSample.engine dataC5 [menuC5a, menuC5b] menuFreshC10
      rfl rfl (by decide)).2 (by decide)⟩

/-! ## Claim C9 -/

/-- C9: `StateManager.updateMenu` with a fresh `menuId` and a payload that
passes menu validation behaves as an insertion: the engine dataset gains
exactly the fallback menu `menuToAdd menuId u` (whose definition fills
omitted fields with the documented defaults: price 0, channel mix
`{dineIn:0.7, takeaway:0.2, delivery:0.1}`, empty BOM, generated Thai
name), the sync path is triggered (a debounce timer becomes pending), no
error is reported and loading is cleared. -/
theorem claim_C9_thm (ok : Bool) (sm : SMState) (d : EngineData)
    (ms : List MenuItem) (menuId : String) (u : MenuItem)
    (hd : sm.engine.data = some d) (hm : d.menus = .arr ms)
    (hv : (validateMenuItem u).isValid = true)
    (hfresh : ∀ m ∈ ms, m.id ≠ some menuId)
    (hsync : sm.syncInProgress = false) :
    (smUpdateMenu ok sm menuId u).engine.data =
      some { d with menus := .arr (ms ++ [menuToAdd menuId u]) } ∧
    (smUpdateMenu ok sm menuId u).syncTimerPending = true ∧
    (smUpdateMenu ok sm menuId u).error = none ∧
    (smUpdateMenu ok sm menuId u).isLoading = false := by
  have hany : ms.any (fun m => m.id = some menuId) = false := by
    rw [List.any_eq_false]
    intro m hmm
    simpa using hfresh m hmm
  have hany2 : ms.any (fun m => m.id = (menuToAdd menuId u).id) = false := by
    simpa [menuToAdd] using hany
  refine ⟨?_, ?_, ?_, ?_⟩ <;>
    simp [smUpdateMenu, hv, engineUpdateMenu, hd, hm, hany, engineSave,
      menusHasId, engineAddMenu, hany2, syncTrigger, hsync, menuToAdd]

/-- A payload passing menu validation, with an id distinct from the target
`menuId` (the id used for insertion is the `menuId` argument). -/
def menuGoodC9 : MenuItem :=
  { id := some "new1", name := some "New", price := some 25
    channelMix := some { dineIn := some 1, takeaway := some 0, delivery := some 0 }
    bom := .arr [] }

/-- C9 witness: the insertion-on-miss behavior at the concrete two-menu
dataset. -/
theorem claim_C9_witness :
    (smUpdateMenu true smSample "m9" menuGoodC9).engine.data =
      some { dataC5 with
        menus := .arr ([menuC5a, menuC5b] ++ [menuToAdd "m9" menuGoodC9]) } ∧
    (smUpdateMenu true smSample "m9" menuGoodC9).syncTimerPending = true ∧
    (smUpdateMenu true smSample "m9" menuGoodC9).error = none ∧
    (smUpdateMenu true smSample "m9" menuGoodC9).isLoading = false :=
  claim_C9_thm true smSample dataC5 [menuC5a, menuC5b] "m9" menuGoodC9 rfl rfl
    (by norm_num [validateMenuItem, menuGoodC9, truthyS]
        exact ⟨by decide, by decide⟩)
    (by decide) rfl
